import Mathlib

/-!
Shallow embedding of the video-tutorial client:
- src/frontend/src/App.tsx (job lifecycle, polling useEffect, action handlers)
- src/frontend/src/components/TutorialLibrary.tsx (library collection, delete)
- src/frontend/src/components/VideoRequestForm.tsx (instruction submission)

The React component App is modelled as an explicit state machine: one
`AppState` record, and an `Event` alphabet whose elements are the discrete
callback boundaries of the source (the synchronous prefix of each async
handler, the resolution of each network request, timer ticks, reset).
Each event applies the handler's state updates and then `reconcile`, which
mirrors React's processing of the polling useEffect (App.tsx lines 23-47):
when the dependency pair [jobId, jobStatus?.status] changed since the
previous commit, the previous effect's cleanup (if one was registered) runs
and clears the interval referenced by pollingRef.current, and then the
effect body arms a fresh 2000 ms interval exactly when
jobId && jobStatus && !['completed','failed','plan_ready'].includes(jobStatus.status).
Armed intervals are kept as a list (not an Option), so that "at most one
timer is ever active" is a provable invariant rather than a modelling
artifact.  In-flight status requests survive interval clearing (as they do
in the browser), which is what decides the stale-response claims.
-/

/-- JS truthiness of a nullable string: null/undefined and the empty string are falsy. -/
def jsTruthy : Option String → Bool
  | none => false
  | some s => s != ""

/-- JS expression (maybeErr || fallback), as used for error messages such as
err.response?.data?.error || 'Error generating plan': a missing or empty
server error string falls back to the default. -/
def jsOr : Option String → String → String
  | none, d => d
  | some s, d => if s == "" then d else s

/-- Task plan: structured data edited by the user; App.tsx treats it opaquely
(it is only stored and sent), so its exact shape is irrelevant here. -/
structure TaskPlan where
  steps : List String
deriving DecidableEq

/-- Job status payload, fields exactly as synthesized in App.tsx lines 62-73
(and spec section 3): id, status, message, instruction, task_plan, video_url,
video_filename, results, error, created_at.  The status is an opaque string
tag; results is an opaque payload modelled as a string. -/
structure Job where
  id : String
  status : String
  message : String
  instruction : String
  task_plan : Option TaskPlan
  video_url : Option String
  video_filename : Option String
  results : Option String
  error : Option String
  created_at : String
deriving DecidableEq

/-- The actionable/terminal status set test
['completed', 'failed', 'plan_ready'].includes(st) (App.tsx lines 24 and 30). -/
def actionable (st : String) : Bool :=
  st == "completed" || st == "failed" || st == "plan_ready"

/-- One armed setInterval: its numeric handle, the jobId captured by the
effect closure (the id whose /status endpoint each tick fetches), and the
interval period in milliseconds (2000 in App.tsx line 39). -/
structure Timer where
  handle : Nat
  jid : String
  periodMs : Nat
deriving DecidableEq

/-- The client state: the five useState hooks of App (jobId, jobStatus,
isLoading, error, showLibrary), plus the runtime objects the source
manipulates: the list of currently armed intervals, the pollingRef cell
(never nulled by the source, only cleared), a fresh-handle counter, whether
the last effect run registered a cleanup, the multiset of in-flight status
requests (each remembering the jobId its URL was built from), and a counter
of console.error calls from failed poll ticks. -/
structure AppState where
  jobId : Option String
  jobStatus : Option Job
  isLoading : Bool
  error : Option String
  showLibrary : Bool
  timers : List Timer
  pollingRefCurrent : Option Nat
  nextHandle : Nat
  hasCleanup : Bool
  inflight : List String
  logCount : Nat
deriving DecidableEq

/-- Initial state of the component (App.tsx lines 14-20). -/
def initState : AppState :=
  { jobId := none, jobStatus := none, isLoading := false, error := none
  , showLibrary := true, timers := [], pollingRefCurrent := none
  , nextHandle := 0, hasCleanup := false, inflight := [], logCount := 0 }

/-- The dependency array of the polling useEffect: [jobId, jobStatus?.status]
(App.tsx line 47). -/
def deps (s : AppState) : Option String × Option String :=
  (s.jobId, s.jobStatus.map Job.status)

/-- The effect's arming condition as a function of the dependency pair:
jobId && jobStatus && !['completed','failed','plan_ready'].includes(jobStatus.status)
(App.tsx line 24; an empty-string jobId is falsy in JS). -/
def shouldPollD : Option String × Option String → Bool
  | (some jid, some st) => jid != "" && !(actionable st)
  | _ => false

/-- The effect's arming condition on a state. -/
def shouldPoll (s : AppState) : Bool :=
  shouldPollD (deps s)

/-- if (pollingRef.current) clearInterval(pollingRef.current): removes the
interval whose handle the ref holds, if that interval is still armed
(clearInterval on an already-cleared handle is a no-op). -/
def clearRef (s : AppState) : AppState :=
  match s.pollingRefCurrent with
  | none => s
  | some h => { s with timers := s.timers.filter (fun t => t.handle != h) }

/-- pollingRef.current = setInterval(..., 2000): arms a fresh interval whose
closure captured the current jobId, stores its handle in the ref, and (in
the model) records that this effect run returned a cleanup. -/
def arm (s : AppState) (jid : String) : AppState :=
  { s with timers := ⟨s.nextHandle, jid, 2000⟩ :: s.timers
         , pollingRefCurrent := some s.nextHandle
         , nextHandle := s.nextHandle + 1
         , hasCleanup := true }

/-- The body of the polling useEffect: arm an interval when the condition
holds (returning a cleanup), otherwise do nothing (no cleanup registered). -/
def armIfNeeded (s : AppState) : AppState :=
  match s.jobId, shouldPoll s with
  | some jid, true => arm s jid
  | _, _ => { s with hasCleanup := false }

/-- React's handling of the polling useEffect at a commit: if the dependency
pair is unchanged from the previous commit nothing happens; otherwise the
previously registered cleanup (if any) clears pollingRef.current's interval
and the effect body runs. -/
def reconcile (old s : AppState) : AppState :=
  if deps old = deps s then s
  else armIfNeeded (if s.hasCleanup then clearRef s else s)

/-- The Job synthesized by handleSubmitInstruction on success
(App.tsx lines 62-73). -/
def pendingJob (jid instruction createdAt : String) : Job :=
  { id := jid, status := "pending", message := "Generating plan"
  , instruction := instruction, task_plan := none, video_url := none
  , video_filename := none, results := none, error := none
  , created_at := createdAt }

/-- Synchronous prefix of handleSubmitInstruction (App.tsx lines 50-54):
setIsLoading(true); setError(null); setJobStatus(null); setJobId(null);
setShowLibrary(false). -/
def handleSubmitInstructionStart (s : AppState) : AppState :=
  { s with isLoading := true, error := none, jobStatus := none
         , jobId := none, showLibrary := false }

/-- Success continuation of handleSubmitInstruction (App.tsx lines 61-73):
setJobId(response.data.job_id) and setJobStatus of a fresh pending Job. -/
def handleSubmitInstructionSuccess (jid instruction createdAt : String)
    (s : AppState) : AppState :=
  { s with jobId := some jid
         , jobStatus := some (pendingJob jid instruction createdAt) }

/-- Catch branch of handleSubmitInstruction (App.tsx lines 74-77). -/
def handleSubmitInstructionFailure (serverErr : Option String)
    (s : AppState) : AppState :=
  { s with error := some (jsOr serverErr "Error generating plan")
         , isLoading := false }

/-- Success continuation of handleSaveTaskPlan (App.tsx line 85):
setJobStatus(prev => prev ? (...prev, task_plan: plan) : null). -/
def handleSaveTaskPlanSuccess (plan : TaskPlan) (s : AppState) : AppState :=
  { s with jobStatus := s.jobStatus.map (fun js => { js with task_plan := some plan }) }

/-- Catch branch of handleSaveTaskPlan (App.tsx lines 86-88); note it does
not touch isLoading or the job. -/
def handleSaveTaskPlanFailure (serverErr : Option String)
    (s : AppState) : AppState :=
  { s with error := some (jsOr serverErr "Error saving plan") }

/-- Synchronous prefix of handleExecute (App.tsx lines 92-95): the guard
if (!jobId) return, then setIsLoading(true); setError(null). -/
def handleExecuteStart (s : AppState) : AppState :=
  if jsTruthy s.jobId then { s with isLoading := true, error := none } else s

/-- Success continuation of handleExecute (App.tsx lines 99-103). -/
def handleExecuteSuccess (s : AppState) : AppState :=
  { s with jobStatus := (s.jobStatus.map
      (fun js => { js with status := "recording", message := "Starting recording" })) }

/-- Catch branch of handleExecute (App.tsx lines 104-107). -/
def handleExecuteFailure (serverErr : Option String) (s : AppState) : AppState :=
  { s with error := some (jsOr serverErr "Error executing"), isLoading := false }

/-- Synchronous prefix of handleRegenerate (App.tsx lines 111-114). -/
def handleRegenerateStart (s : AppState) : AppState :=
  if jsTruthy s.jobId then { s with isLoading := true, error := none } else s

/-- Success continuation of handleRegenerate (App.tsx lines 118-124):
status recording, new message, video_url and video_filename nulled. -/
def handleRegenerateSuccess (s : AppState) : AppState :=
  { s with jobStatus := (s.jobStatus.map
      (fun js => { js with status := "recording", message := "Regenerating video"
                         , video_url := none, video_filename := none })) }

/-- Catch branch of handleRegenerate (App.tsx lines 125-128). -/
def handleRegenerateFailure (serverErr : Option String) (s : AppState) : AppState :=
  { s with error := some (jsOr serverErr "Error regenerating"), isLoading := false }

/-- resetAll (App.tsx lines 131-140): null out jobId, jobStatus, error,
isLoading, show the library again, and clearInterval(pollingRef.current). -/
def resetAll (s : AppState) : AppState :=
  clearRef { s with jobId := none, jobStatus := none, error := none
                  , isLoading := false, showLibrary := true }

/-- A firing of an armed interval sends GET /status/(captured jobId)
(App.tsx lines 25-27): the request joins the in-flight multiset; no state
hook changes until the response arrives. -/
def pollTickFire (s : AppState) : AppState :=
  match s.timers with
  | t :: _ => { s with inflight := t.jid :: s.inflight }
  | [] => s

/-- Resolution of an in-flight status request with payload (App.tsx lines
28-35): setJobStatus(response.data) unconditionally; if the new status is
actionable/terminal, setIsLoading(false) and clearInterval(pollingRef.current).
Resolving a request that was never sent is a no-op. -/
def pollTickSuccess (jid : String) (payload : Job) (s : AppState) : AppState :=
  if jid ∈ s.inflight then
    let s1 := { s with inflight := s.inflight.erase jid, jobStatus := some payload }
    if actionable payload.status then clearRef { s1 with isLoading := false } else s1
  else s

/-- Failed resolution of an in-flight status request (App.tsx lines 36-38):
console.error only; no hook changes, the interval keeps running. -/
def pollTickFailure (jid : String) (s : AppState) : AppState :=
  if jid ∈ s.inflight then
    { s with inflight := s.inflight.erase jid, logCount := s.logCount + 1 }
  else s

/-- The discrete callback boundaries of App: each async handler split into
its synchronous prefix and its resolutions, plus reset and timer events. -/
inductive Event where
  | submitStart (instruction : String)
  | submitSuccess (jid instruction createdAt : String)
  | submitFailure (serverErr : Option String)
  | saveSuccess (plan : TaskPlan)
  | saveFailure (serverErr : Option String)
  | executeStart
  | executeSuccess
  | executeFailure (serverErr : Option String)
  | regenerateStart
  | regenerateSuccess
  | regenerateFailure (serverErr : Option String)
  | reset
  | tickFire
  | pollSuccess (jid : String) (payload : Job)
  | pollFailure (jid : String)
deriving DecidableEq

/-- The state updates an event's handler performs, before React reprocesses
the polling effect. -/
def handleEvent : Event → AppState → AppState
  | .submitStart _, s => handleSubmitInstructionStart s
  | .submitSuccess jid instr t, s => handleSubmitInstructionSuccess jid instr t s
  | .submitFailure e, s => handleSubmitInstructionFailure e s
  | .saveSuccess plan, s => handleSaveTaskPlanSuccess plan s
  | .saveFailure e, s => handleSaveTaskPlanFailure e s
  | .executeStart, s => handleExecuteStart s
  | .executeSuccess, s => handleExecuteSuccess s
  | .executeFailure e, s => handleExecuteFailure e s
  | .regenerateStart, s => handleRegenerateStart s
  | .regenerateSuccess, s => handleRegenerateSuccess s
  | .regenerateFailure e, s => handleRegenerateFailure e s
  | .reset, s => resetAll s
  | .tickFire, s => pollTickFire s
  | .pollSuccess jid payload, s => pollTickSuccess jid payload s
  | .pollFailure jid, s => pollTickFailure jid s

/-- One event: the handler's updates followed by React's reprocessing of the
polling effect at the commit. -/
def step (s : AppState) (e : Event) : AppState :=
  reconcile s (handleEvent e s)

/-- The state after a sequence of events from the initial mount. -/
def run (es : List Event) : AppState :=
  es.foldl step initState


/-! Basic lemmas about the effect machinery. -/

lemma shouldPollD_fst_none (x : Option String) : shouldPollD (none, x) = false := by
  cases x <;> rfl

lemma shouldPoll_none (s : AppState) (h : s.jobId = none) : shouldPoll s = false := by
  unfold shouldPoll deps
  rw [h]
  exact shouldPollD_fst_none _

lemma shouldPoll_actionable (s : AppState) (js : Job) (h : s.jobStatus = some js)
    (ha : actionable js.status = true) : shouldPoll s = false := by
  unfold shouldPoll deps
  rw [h]
  cases hj : s.jobId with
  | none => exact shouldPollD_fst_none _
  | some jid => simp [shouldPollD, ha]

lemma shouldPoll_congr {a b : AppState} (h : deps a = deps b) :
    shouldPoll a = shouldPoll b := by
  unfold shouldPoll
  rw [h]

lemma jobId_congr {a b : AppState} (h : deps a = deps b) : a.jobId = b.jobId :=
  congrArg Prod.fst h

lemma shouldPoll_clearRef (s : AppState) : shouldPoll (clearRef s) = shouldPoll s := by
  unfold clearRef
  split <;> rfl

lemma clearRef_nil (s : AppState)
    (h : s.timers = [] ∨ ∃ t : Timer, s.timers = [t] ∧ s.pollingRefCurrent = some t.handle) :
    (clearRef s).timers = [] := by
  unfold clearRef
  rcases h with hnil | ⟨t, htt, hrr⟩
  · split
    · exact hnil
    · simp [hnil]
  · split
    next hnone => rw [hnone] at hrr; cases hrr
    next h2 hsome =>
      rw [hsome] at hrr
      injection hrr with hh
      subst hh
      simp [htt]

/-- The principal timer invariant: either no interval is armed and the effect
condition is false, or exactly one interval is armed, the effect condition
holds, the interval polls the current jobId at a 2000 ms period, the ref
holds its handle, and a cleanup is registered. -/
def AppInv (s : AppState) : Prop :=
  (s.timers = [] ∧ shouldPoll s = false) ∨
  (∃ t : Timer, s.timers = [t] ∧ shouldPoll s = true ∧ s.jobId = some t.jid ∧
    s.pollingRefCurrent = some t.handle ∧ s.hasCleanup = true ∧ t.periodMs = 2000)

lemma cleanup_timers_nil (b : AppState)
    (h : b.timers = [] ∨
      ∃ t : Timer, b.timers = [t] ∧ b.pollingRefCurrent = some t.handle ∧ b.hasCleanup = true) :
    (if b.hasCleanup then clearRef b else b).timers = [] := by
  rcases h with hnil | ⟨t, htt, hrr, hcc⟩
  · by_cases hb : b.hasCleanup = true
    · rw [if_pos hb]
      exact clearRef_nil b (Or.inl hnil)
    · rw [if_neg hb]
      exact hnil
  · rw [if_pos hcc]
    exact clearRef_nil b (Or.inr ⟨t, htt, hrr⟩)

lemma armIfNeeded_inv (s : AppState) (h : s.timers = []) : AppInv (armIfNeeded s) := by
  unfold armIfNeeded
  split
  · rename_i jid hj hs
    right
    refine ⟨⟨s.nextHandle, jid, 2000⟩, ?_, ?_, ?_, rfl, rfl, rfl⟩
    · show (arm s jid).timers = _
      unfold arm
      simp [h]
    · show shouldPoll (arm s jid) = true
      exact hs
    · show (arm s jid).jobId = some jid
      exact hj
  · rename_i hne
    left
    refine ⟨h, ?_⟩
    show shouldPoll { s with hasCleanup := false } = false
    cases hj : s.jobId with
    | none => exact shouldPoll_none _ rfl
    | some jid =>
        cases hsp : shouldPoll s with
        | false =>
            have hd : shouldPollD (some jid, s.jobStatus.map Job.status) = false := by
              rw [← hj]
              exact hsp
            exact hd
        | true => exact (hne jid hj hsp).elim

lemma step_preserve_inv (s : AppState) (e : Event) (hInv : AppInv s)
    (ht : (handleEvent e s).timers = s.timers)
    (hr : (handleEvent e s).pollingRefCurrent = s.pollingRefCurrent)
    (hc : (handleEvent e s).hasCleanup = s.hasCleanup) :
    AppInv (step s e) := by
  unfold step reconcile
  set b := handleEvent e s with hb
  by_cases hd : deps s = deps b
  · rw [if_pos hd]
    rcases hInv with ⟨hnil, hsp⟩ | ⟨t, htt, hst, hji, hrr, hcc, hp⟩
    · exact Or.inl ⟨ht.trans hnil, ((shouldPoll_congr hd).symm).trans hsp⟩
    · exact Or.inr ⟨t, ht.trans htt, ((shouldPoll_congr hd).symm).trans hst,
        ((jobId_congr hd).symm).trans hji, hr.trans hrr, hc.trans hcc, hp⟩
  · rw [if_neg hd]
    apply armIfNeeded_inv
    apply cleanup_timers_nil
    rcases hInv with ⟨hnil, _⟩ | ⟨t, htt, _, _, hrr, hcc, _⟩
    · exact Or.inl (ht.trans hnil)
    · exact Or.inr ⟨t, ht.trans htt, hr.trans hrr, hc.trans hcc⟩

lemma step_clearing_inv (s : AppState) (e : Event)
    (ht : (handleEvent e s).timers = [])
    (hsp : shouldPoll (handleEvent e s) = false) :
    AppInv (step s e) := by
  unfold step reconcile
  set b := handleEvent e s with hb
  by_cases hd : deps s = deps b
  · rw [if_pos hd]
    exact Or.inl ⟨ht, hsp⟩
  · rw [if_neg hd]
    apply armIfNeeded_inv
    apply cleanup_timers_nil
    exact Or.inl ht

lemma inv_step (s : AppState) (e : Event) (hInv : AppInv s) : AppInv (step s e) := by
  cases e with
  | submitStart instr => exact step_preserve_inv s _ hInv rfl rfl rfl
  | submitSuccess jid instr t => exact step_preserve_inv s _ hInv rfl rfl rfl
  | submitFailure err => exact step_preserve_inv s _ hInv rfl rfl rfl
  | saveSuccess plan => exact step_preserve_inv s _ hInv rfl rfl rfl
  | saveFailure err => exact step_preserve_inv s _ hInv rfl rfl rfl
  | executeStart =>
      apply step_preserve_inv s Event.executeStart hInv
      · show (handleExecuteStart s).timers = s.timers
        unfold handleExecuteStart
        split <;> rfl
      · show (handleExecuteStart s).pollingRefCurrent = s.pollingRefCurrent
        unfold handleExecuteStart
        split <;> rfl
      · show (handleExecuteStart s).hasCleanup = s.hasCleanup
        unfold handleExecuteStart
        split <;> rfl
  | executeSuccess => exact step_preserve_inv s _ hInv rfl rfl rfl
  | executeFailure err => exact step_preserve_inv s _ hInv rfl rfl rfl
  | regenerateStart =>
      apply step_preserve_inv s Event.regenerateStart hInv
      · show (handleRegenerateStart s).timers = s.timers
        unfold handleRegenerateStart
        split <;> rfl
      · show (handleRegenerateStart s).pollingRefCurrent = s.pollingRefCurrent
        unfold handleRegenerateStart
        split <;> rfl
      · show (handleRegenerateStart s).hasCleanup = s.hasCleanup
        unfold handleRegenerateStart
        split <;> rfl
  | regenerateSuccess => exact step_preserve_inv s _ hInv rfl rfl rfl
  | regenerateFailure err => exact step_preserve_inv s _ hInv rfl rfl rfl
  | reset =>
      apply step_clearing_inv
      · show (resetAll s).timers = []
        unfold resetAll
        apply clearRef_nil
        rcases hInv with ⟨hnil, _⟩ | ⟨t, htt, _, _, hrr, _, _⟩
        · exact Or.inl hnil
        · exact Or.inr ⟨t, htt, hrr⟩
      · show shouldPoll (resetAll s) = false
        unfold resetAll
        rw [shouldPoll_clearRef]
        exact shouldPoll_none _ rfl
  | tickFire =>
      apply step_preserve_inv s Event.tickFire hInv
      · show (pollTickFire s).timers = s.timers
        unfold pollTickFire
        split <;> rfl
      · show (pollTickFire s).pollingRefCurrent = s.pollingRefCurrent
        unfold pollTickFire
        split <;> rfl
      · show (pollTickFire s).hasCleanup = s.hasCleanup
        unfold pollTickFire
        split <;> rfl
  | pollFailure jid =>
      apply step_preserve_inv s (Event.pollFailure jid) hInv
      · show (pollTickFailure jid s).timers = s.timers
        unfold pollTickFailure
        split <;> rfl
      · show (pollTickFailure jid s).pollingRefCurrent = s.pollingRefCurrent
        unfold pollTickFailure
        split <;> rfl
      · show (pollTickFailure jid s).hasCleanup = s.hasCleanup
        unfold pollTickFailure
        split <;> rfl
  | pollSuccess jid payload =>
      by_cases hin : jid ∈ s.inflight
      · by_cases hact : actionable payload.status = true
        · apply step_clearing_inv
          · show (pollTickSuccess jid payload s).timers = []
            unfold pollTickSuccess
            rw [if_pos hin, if_pos hact]
            apply clearRef_nil
            rcases hInv with ⟨hnil, _⟩ | ⟨t, htt, _, _, hrr, _, _⟩
            · exact Or.inl hnil
            · exact Or.inr ⟨t, htt, hrr⟩
          · show shouldPoll (pollTickSuccess jid payload s) = false
            unfold pollTickSuccess
            rw [if_pos hin, if_pos hact, shouldPoll_clearRef]
            exact shouldPoll_actionable _ payload rfl hact
        · apply step_preserve_inv s (Event.pollSuccess jid payload) hInv
          · show (pollTickSuccess jid payload s).timers = s.timers
            unfold pollTickSuccess
            rw [if_pos hin, if_neg hact]
          · show (pollTickSuccess jid payload s).pollingRefCurrent = s.pollingRefCurrent
            unfold pollTickSuccess
            rw [if_pos hin, if_neg hact]
          · show (pollTickSuccess jid payload s).hasCleanup = s.hasCleanup
            unfold pollTickSuccess
            rw [if_pos hin, if_neg hact]
      · apply step_preserve_inv s (Event.pollSuccess jid payload) hInv
        · show (pollTickSuccess jid payload s).timers = s.timers
          unfold pollTickSuccess
          rw [if_neg hin]
        · show (pollTickSuccess jid payload s).pollingRefCurrent = s.pollingRefCurrent
          unfold pollTickSuccess
          rw [if_neg hin]
        · show (pollTickSuccess jid payload s).hasCleanup = s.hasCleanup
          unfold pollTickSuccess
          rw [if_neg hin]

lemma inv_foldl (es : List Event) : ∀ s : AppState, AppInv s → AppInv (es.foldl step s) := by
  induction es with
  | nil => intro s h; exact h
  | cons e es ih => intro s h; exact ih _ (inv_step s e h)

lemma inv_init : AppInv initState := Or.inl ⟨rfl, rfl⟩

lemma inv_run (es : List Event) : AppInv (run es) :=
  inv_foldl es initState inv_init

/-! Projection lemmas: the effect reconciliation only manages the interval
machinery; it never changes the hook state the handlers wrote. -/

lemma clearRef_jobId (s : AppState) : (clearRef s).jobId = s.jobId := by
  unfold clearRef
  split <;> rfl

lemma clearRef_jobStatus (s : AppState) : (clearRef s).jobStatus = s.jobStatus := by
  unfold clearRef
  split <;> rfl

lemma clearRef_error (s : AppState) : (clearRef s).error = s.error := by
  unfold clearRef
  split <;> rfl

lemma clearRef_isLoading (s : AppState) : (clearRef s).isLoading = s.isLoading := by
  unfold clearRef
  split <;> rfl

lemma clearRef_inflight (s : AppState) : (clearRef s).inflight = s.inflight := by
  unfold clearRef
  split <;> rfl

lemma clearRef_logCount (s : AppState) : (clearRef s).logCount = s.logCount := by
  unfold clearRef
  split <;> rfl

lemma armIfNeeded_jobId (s : AppState) : (armIfNeeded s).jobId = s.jobId := by
  unfold armIfNeeded
  split <;> rfl

lemma armIfNeeded_jobStatus (s : AppState) : (armIfNeeded s).jobStatus = s.jobStatus := by
  unfold armIfNeeded
  split <;> rfl

lemma armIfNeeded_error (s : AppState) : (armIfNeeded s).error = s.error := by
  unfold armIfNeeded
  split <;> rfl

lemma armIfNeeded_isLoading (s : AppState) : (armIfNeeded s).isLoading = s.isLoading := by
  unfold armIfNeeded
  split <;> rfl

lemma armIfNeeded_inflight (s : AppState) : (armIfNeeded s).inflight = s.inflight := by
  unfold armIfNeeded
  split <;> rfl

lemma armIfNeeded_logCount (s : AppState) : (armIfNeeded s).logCount = s.logCount := by
  unfold armIfNeeded
  split <;> rfl

lemma reconcile_jobId (a b : AppState) : (reconcile a b).jobId = b.jobId := by
  unfold reconcile
  split
  · rfl
  · rw [armIfNeeded_jobId]
    split
    · exact clearRef_jobId b
    · rfl

lemma reconcile_jobStatus (a b : AppState) : (reconcile a b).jobStatus = b.jobStatus := by
  unfold reconcile
  split
  · rfl
  · rw [armIfNeeded_jobStatus]
    split
    · exact clearRef_jobStatus b
    · rfl

lemma reconcile_error (a b : AppState) : (reconcile a b).error = b.error := by
  unfold reconcile
  split
  · rfl
  · rw [armIfNeeded_error]
    split
    · exact clearRef_error b
    · rfl

lemma reconcile_isLoading (a b : AppState) : (reconcile a b).isLoading = b.isLoading := by
  unfold reconcile
  split
  · rfl
  · rw [armIfNeeded_isLoading]
    split
    · exact clearRef_isLoading b
    · rfl

lemma reconcile_inflight (a b : AppState) : (reconcile a b).inflight = b.inflight := by
  unfold reconcile
  split
  · rfl
  · rw [armIfNeeded_inflight]
    split
    · exact clearRef_inflight b
    · rfl

lemma reconcile_logCount (a b : AppState) : (reconcile a b).logCount = b.logCount := by
  unfold reconcile
  split
  · rfl
  · rw [armIfNeeded_logCount]
    split
    · exact clearRef_logCount b
    · rfl

lemma step_jobId (s : AppState) (e : Event) : (step s e).jobId = (handleEvent e s).jobId := by
  unfold step
  exact reconcile_jobId _ _

lemma step_jobStatus (s : AppState) (e : Event) :
    (step s e).jobStatus = (handleEvent e s).jobStatus := by
  unfold step
  exact reconcile_jobStatus _ _

lemma step_error (s : AppState) (e : Event) : (step s e).error = (handleEvent e s).error := by
  unfold step
  exact reconcile_error _ _

lemma step_isLoading (s : AppState) (e : Event) :
    (step s e).isLoading = (handleEvent e s).isLoading := by
  unfold step
  exact reconcile_isLoading _ _

lemma step_inflight (s : AppState) (e : Event) :
    (step s e).inflight = (handleEvent e s).inflight := by
  unfold step
  exact reconcile_inflight _ _

lemma step_logCount (s : AppState) (e : Event) :
    (step s e).logCount = (handleEvent e s).logCount := by
  unfold step
  exact reconcile_logCount _ _

lemma run_append_one (es : List Event) (e : Event) :
    run (es ++ [e]) = step (run es) e := by
  simp [run, List.foldl_append]

lemma step_eq_handle_of_deps (s : AppState) (e : Event)
    (h : deps s = deps (handleEvent e s)) : step s e = handleEvent e s := by
  unfold step reconcile
  rw [if_pos h]

lemma shouldPoll_of_fields (s : AppState) (j : String) (js : Job)
    (h1 : s.jobId = some j) (h2 : s.jobStatus = some js) :
    shouldPoll s = (j != "" && !(actionable js.status)) := by
  unfold shouldPoll deps
  rw [h1, h2]
  rfl

lemma pollTickSuccess_jobStatus_of_mem (s : AppState) (jid : String) (payload : Job)
    (h : jid ∈ s.inflight) :
    (pollTickSuccess jid payload s).jobStatus = some payload := by
  unfold pollTickSuccess
  rw [if_pos h]
  split
  · rw [clearRef_jobStatus]
  · rfl

/-! Claim theorems for the job lifecycle engine. -/

/-- Claim C1: for every sequence of events (in particular every sequence of
handleSubmitInstruction and resetAll calls, interleaved with polling
activity), at most one poll interval is armed at any instant; when one is
armed, its closure captured exactly the current (most recently started)
job's id, its period is the fixed 2000 ms, and a firing of it enqueues a
status request for precisely that id.  A previous timer is always cleared
(by the effect cleanup, resetAll, or the terminal-status branch) before a
new one is armed, which is what the reachability invariant records. -/
theorem c1_at_most_one_timer_for_current_job (es : List Event) :
    (run es).timers = [] ∨
    ∃ t : Timer, (run es).timers = [t] ∧ (run es).jobId = some t.jid ∧
      t.periodMs = 2000 ∧
      (run (es ++ [Event.tickFire])).inflight = t.jid :: (run es).inflight := by
  rcases inv_run es with ⟨hnil, _⟩ | ⟨t, htt, _, hji, _, _, hp⟩
  · exact Or.inl hnil
  · refine Or.inr ⟨t, htt, hji, hp, ?_⟩
    rw [run_append_one, step_inflight]
    show (pollTickFire (run es)).inflight = _
    unfold pollTickFire
    rw [htt]

/-- Concrete stale payload used to refute claim C2: the status object of job
abc as the server would return it after the poll request was sent. -/
def staleJob : Job :=
  { id := "abc", status := "generating_plan", message := "Analyzing"
  , instruction := "i", task_plan := none, video_url := none
  , video_filename := none, results := none, error := none, created_at := "t0" }

/-- The refuting trace for claim C2: a job starts (arming the poller), a tick
fires (its GET /status/abc goes in flight), the user resets, and then the
in-flight response arrives. -/
def c2Trace : List Event :=
  [Event.submitSuccess "abc" "i" "t0", Event.tickFire, Event.reset,
   Event.pollSuccess "abc" staleJob]

/-- Claim C2 is false on the code (code bug): resetAll clears the interval
but nothing guards the already in-flight request's continuation, which calls
setJobStatus(response.data) unconditionally (App.tsx line 28).  Right after
the reset the state has jobStatus = null, yet once the stale response is
processed jobStatus holds the old job's payload again (and jobId is still
null, so this payload belongs to no newer job). -/
theorem c2_stale_response_mutates_after_reset :
    (run (c2Trace.take 3)).jobStatus = none ∧
    (run (c2Trace.take 3)).jobId = none ∧
    (run c2Trace).jobStatus = some staleJob ∧
    (run c2Trace).jobId = none := by
  refine ⟨?_, ?_, ?_, ?_⟩ <;> decide

/-- Claim C3: an interval is armed exactly when a (truthy) job id exists and
the job's status is outside the actionable/terminal set; the resolution of a
status read with a status in that set leaves no armed interval; and an
execute or regenerate success re-arms polling (the optimistic status
recording is outside the set). -/
theorem c3_polling_active_iff_nonterminal (es : List Event) (jid j : String)
    (payload js : Job)
    (hin : jid ∈ (run es).inflight)
    (hterm : actionable payload.status = true)
    (hjob : (run es).jobId = some j)
    (hne : j ≠ "")
    (hjs : (run es).jobStatus = some js) :
    ((run es).timers ≠ [] ↔ shouldPoll (run es) = true) ∧
    (run (es ++ [Event.pollSuccess jid payload])).timers = [] ∧
    (run (es ++ [Event.executeSuccess])).timers ≠ [] ∧
    (run (es ++ [Event.regenerateSuccess])).timers ≠ [] := by
  refine ⟨?_, ?_, ?_, ?_⟩
  · constructor
    · intro hts
      rcases inv_run es with ⟨hnil, _⟩ | ⟨t, _, hst, _, _, _, _⟩
      · exact absurd hnil hts
      · exact hst
    · intro hsp
      rcases inv_run es with ⟨_, hf⟩ | ⟨t, htt, _, _, _, _, _⟩
      · rw [hf] at hsp
        cases hsp
      · rw [htt]
        simp
  · rw [run_append_one]
    have hI := inv_run (es ++ [Event.pollSuccess jid payload])
    rw [run_append_one] at hI
    rcases hI with ⟨hnil, _⟩ | ⟨t, _, hst, _, _, _, _⟩
    · exact hnil
    · have hjs2 : (step (run es) (Event.pollSuccess jid payload)).jobStatus = some payload := by
        rw [step_jobStatus]
        exact pollTickSuccess_jobStatus_of_mem _ _ _ hin
      have := shouldPoll_actionable _ payload hjs2 hterm
      rw [this] at hst
      cases hst
  · rw [run_append_one]
    have hI := inv_run (es ++ [Event.executeSuccess])
    rw [run_append_one] at hI
    rcases hI with ⟨_, hsp⟩ | ⟨t, htt, _, _, _, _, _⟩
    · exfalso
      have hid : (step (run es) Event.executeSuccess).jobId = some j := by
        rw [step_jobId]
        exact hjob
      have hst : (step (run es) Event.executeSuccess).jobStatus =
          some { js with status := "recording", message := "Starting recording" } := by
        rw [step_jobStatus]
        show ((run es).jobStatus.map _) = _
        rw [hjs]
        rfl
      rw [shouldPoll_of_fields _ j _ hid hst] at hsp
      have hbne : (j != "") = true := bne_iff_ne.mpr hne
      rw [hbne] at hsp
      have hact : actionable "recording" = false := by decide
      simp [hact] at hsp
    · rw [htt]
      simp
  · rw [run_append_one]
    have hI := inv_run (es ++ [Event.regenerateSuccess])
    rw [run_append_one] at hI
    rcases hI with ⟨_, hsp⟩ | ⟨t, htt, _, _, _, _, _⟩
    · exfalso
      have hid : (step (run es) Event.regenerateSuccess).jobId = some j := by
        rw [step_jobId]
        exact hjob
      have hst : (step (run es) Event.regenerateSuccess).jobStatus =
          some { js with status := "recording", message := "Regenerating video"
                       , video_url := none, video_filename := none } := by
        rw [step_jobStatus]
        show ((run es).jobStatus.map _) = _
        rw [hjs]
        rfl
      rw [shouldPoll_of_fields _ j _ hid hst] at hsp
      have hbne : (j != "") = true := bne_iff_ne.mpr hne
      rw [hbne] at hsp
      have hact : actionable "recording" = false := by decide
      simp [hact] at hsp
    · rw [htt]
      simp

/-- Witness trace for claim C3: job abc has been started and one poll request
is in flight. -/
def c3Trace : List Event := [Event.submitSuccess "abc" "i" "t0", Event.tickFire]

/-- Concrete terminal status payload for the claim C3 witness. -/
def planReadyJob : Job :=
  { id := "abc", status := "plan_ready", message := "Plan ready"
  , instruction := "i", task_plan := none, video_url := none
  , video_filename := none, results := none, error := none, created_at := "t0" }

/-- Witness for claim C3 at the concrete trace c3Trace. -/
theorem c3_witness :
    ((run c3Trace).timers ≠ [] ↔ shouldPoll (run c3Trace) = true) ∧
    (run (c3Trace ++ [Event.pollSuccess "abc" planReadyJob])).timers = [] ∧
    (run (c3Trace ++ [Event.executeSuccess])).timers ≠ [] ∧
    (run (c3Trace ++ [Event.regenerateSuccess])).timers ≠ [] :=
  c3_polling_active_iff_nonterminal c3Trace "abc" "abc"
    planReadyJob (pendingJob "abc" "i" "t0")
    (by decide) (by decide) (by decide) (by decide) (by decide)

/-- Claim C4: handleSubmitInstruction on success installs exactly the
synthesized pending Job (server id, given instruction, status pending, every
optional field null), and on request failure surfaces an error message while
leaving jobId and jobStatus both null (no partial job).  The two resolutions
are taken immediately after the handler's synchronous prefix, which is where
they land when no other callback interleaves. -/
theorem c4_startJob_success_and_failure (s : AppState)
    (instruction jid createdAt : String) (serverErr : Option String) :
    (step (step s (Event.submitStart instruction))
        (Event.submitSuccess jid instruction createdAt)).jobId = some jid ∧
    (step (step s (Event.submitStart instruction))
        (Event.submitSuccess jid instruction createdAt)).jobStatus =
      some (pendingJob jid instruction createdAt) ∧
    pendingJob jid instruction createdAt =
      { id := jid, status := "pending", message := "Generating plan"
      , instruction := instruction, task_plan := none, video_url := none
      , video_filename := none, results := none, error := none
      , created_at := createdAt } ∧
    (step (step s (Event.submitStart instruction)) (Event.submitFailure serverErr)).jobId
      = none ∧
    (step (step s (Event.submitStart instruction)) (Event.submitFailure serverErr)).jobStatus
      = none ∧
    (step (step s (Event.submitStart instruction)) (Event.submitFailure serverErr)).error
      = some (jsOr serverErr "Error generating plan") := by
  refine ⟨?_, ?_, rfl, ?_, ?_, ?_⟩
  · rw [step_jobId]
    rfl
  · rw [step_jobStatus]
    rfl
  · rw [step_jobId]
    show (step s (Event.submitStart instruction)).jobId = none
    rw [step_jobId]
    rfl
  · rw [step_jobStatus]
    show (step s (Event.submitStart instruction)).jobStatus = none
    rw [step_jobStatus]
    rfl
  · rw [step_error]
    rfl

/-- Claim C5: a successful execute request changes only the local job's
status (to recording) and message, and a successful regenerate request
additionally nulls video_url and video_filename; every other Job field is
untouched, stated by the record updates. -/
theorem c5_execute_and_regenerate_optimistic (s : AppState) (js : Job)
    (h : s.jobStatus = some js) :
    (step s Event.executeSuccess).jobStatus =
      some { js with status := "recording", message := "Starting recording" } ∧
    (step s Event.regenerateSuccess).jobStatus =
      some { js with status := "recording", message := "Regenerating video"
                   , video_url := none, video_filename := none } := by
  constructor
  · rw [step_jobStatus]
    show (s.jobStatus.map _) = _
    rw [h]
    rfl
  · rw [step_jobStatus]
    show (s.jobStatus.map _) = _
    rw [h]
    rfl

/-- Concrete completed job and state for the claim C5 witness: every optional
field populated, so that the frame part of the record update is visible. -/
def completedJob : Job :=
  { id := "abc", status := "completed", message := "Done"
  , instruction := "i", task_plan := some ⟨["step one"]⟩
  , video_url := some "/media/abc.mp4", video_filename := some "abc.mp4"
  , results := some "ok", error := none, created_at := "t0" }

/-- State holding completedJob as the active job. -/
def completedState : AppState :=
  { initState with jobId := some "abc", jobStatus := some completedJob }

/-- Witness for claim C5 at completedState. -/
theorem c5_witness :
    (step completedState Event.executeSuccess).jobStatus =
      some { completedJob with status := "recording", message := "Starting recording" } ∧
    (step completedState Event.regenerateSuccess).jobStatus =
      some { completedJob with status := "recording", message := "Regenerating video"
                             , video_url := none, video_filename := none } :=
  c5_execute_and_regenerate_optimistic completedState completedJob rfl

/-- Claim C6: a successful plan save replaces exactly the local job's
task_plan with the submitted plan (record update, so no other field and in
particular not status), and a failed save leaves the whole job untouched
while surfacing an error. -/
theorem c6_save_plan_frame (s : AppState) (js : Job) (plan : TaskPlan)
    (serverErr : Option String) (h : s.jobStatus = some js) :
    (step s (Event.saveSuccess plan)).jobStatus = some { js with task_plan := some plan } ∧
    ({ js with task_plan := some plan }).status = js.status ∧
    (step s (Event.saveFailure serverErr)).jobStatus = s.jobStatus ∧
    (step s (Event.saveFailure serverErr)).jobId = s.jobId ∧
    (step s (Event.saveFailure serverErr)).error = some (jsOr serverErr "Error saving plan") := by
  refine ⟨?_, rfl, ?_, ?_, ?_⟩
  · rw [step_jobStatus]
    show (s.jobStatus.map _) = _
    rw [h]
    rfl
  · rw [step_jobStatus]
    rfl
  · rw [step_jobId]
    rfl
  · rw [step_error]
    rfl

/-- Witness for claim C6 at completedState with a one-step plan. -/
theorem c6_witness :
    (step completedState (Event.saveSuccess ⟨["new step"]⟩)).jobStatus =
      some { completedJob with task_plan := some ⟨["new step"]⟩ } ∧
    ({ completedJob with task_plan := some (⟨["new step"]⟩ : TaskPlan) }).status
      = completedJob.status ∧
    (step completedState (Event.saveFailure none)).jobStatus = completedState.jobStatus ∧
    (step completedState (Event.saveFailure none)).jobId = completedState.jobId ∧
    (step completedState (Event.saveFailure none)).error = some (jsOr none "Error saving plan") :=
  c6_save_plan_frame completedState completedJob ⟨["new step"]⟩ none rfl

/-- Claim C7: a failed poll tick only logs (console.error): jobId, jobStatus,
error, isLoading and the armed interval are all unchanged (so the fixed
2000 ms interval keeps firing), and when the failed request really was in
flight the log counter grows by one. -/
theorem c7_poll_failure_only_logged (s : AppState) (jid : String) :
    (step s (Event.pollFailure jid)).jobId = s.jobId ∧
    (step s (Event.pollFailure jid)).jobStatus = s.jobStatus ∧
    (step s (Event.pollFailure jid)).error = s.error ∧
    (step s (Event.pollFailure jid)).isLoading = s.isLoading ∧
    (step s (Event.pollFailure jid)).timers = s.timers ∧
    (jid ∈ s.inflight → (step s (Event.pollFailure jid)).logCount = s.logCount + 1) := by
  have hd : deps s = deps (handleEvent (Event.pollFailure jid) s) := by
    show deps s = deps (pollTickFailure jid s)
    unfold pollTickFailure
    split <;> rfl
  have hstep : step s (Event.pollFailure jid) = pollTickFailure jid s :=
    step_eq_handle_of_deps s (Event.pollFailure jid) hd
  rw [hstep]
  refine ⟨?_, ?_, ?_, ?_, ?_, ?_⟩
  · unfold pollTickFailure
    split <;> rfl
  · unfold pollTickFailure
    split <;> rfl
  · unfold pollTickFailure
    split <;> rfl
  · unfold pollTickFailure
    split <;> rfl
  · unfold pollTickFailure
    split <;> rfl
  · intro hin
    unfold pollTickFailure
    rw [if_pos hin]

/-- Witness for claim C7 at the concrete trace c3Trace, whose in-flight list
contains the request for job abc. -/
theorem c7_witness :
    (step (run c3Trace) (Event.pollFailure "abc")).jobStatus = (run c3Trace).jobStatus ∧
    (step (run c3Trace) (Event.pollFailure "abc")).timers = (run c3Trace).timers ∧
    (step (run c3Trace) (Event.pollFailure "abc")).logCount = (run c3Trace).logCount + 1 :=
  ⟨(c7_poll_failure_only_logged (run c3Trace) "abc").2.1,
   (c7_poll_failure_only_logged (run c3Trace) "abc").2.2.2.2.1,
   (c7_poll_failure_only_logged (run c3Trace) "abc").2.2.2.2.2 (by decide)⟩

/-! Embedding of TutorialLibrary.tsx. -/

/-- Library entry, fields as in the Tutorial interface
(TutorialLibrary.tsx lines 4-15); the numeric file size is opaque here. -/
structure Tutorial where
  id : String
  goal : String
  original_instruction : String
  success_criteria : String
  steps_count : Nat
  video_url : String
  video_filename : String
  download_url : String
  file_size_mb : Nat
  created_at : String
deriving DecidableEq

/-- The useState hooks of TutorialLibrary (lines 24-28) plus the list of
alert() messages raised by failed deletes. -/
structure LibState where
  tutorials : List Tutorial
  loading : Bool
  error : Option String
  expandedId : Option String
  playingId : Option String
  alerts : List String
deriving DecidableEq

/-- Outcome of the DELETE /api/tutorials/id request. -/
inductive DeleteOutcome where
  | success
  | failure (serverErr : Option String)
deriving DecidableEq

/-- handleDelete (TutorialLibrary.tsx lines 47-62): bail out unless the user
confirmed; on request success filter the entry out by id and null whichever
of expandedId/playingId pointed at it; on request failure alert and change
nothing else. -/
def handleDelete (s : LibState) (id : String) (confirmed : Bool)
    (out : DeleteOutcome) : LibState :=
  if confirmed then
    match out with
    | .success =>
        { s with tutorials := s.tutorials.filter (fun t => t.id != id)
               , expandedId := if s.expandedId = some id then none else s.expandedId
               , playingId := if s.playingId = some id then none else s.playingId }
    | .failure e => { s with alerts := jsOr e "Failed to delete tutorial" :: s.alerts }
  else s

/-- Claim C8: a confirmed successful delete of the (unique) entry with the
given id removes exactly that entry and preserves every other entry and
their order; a failed delete changes nothing but the alert list; an
unconfirmed delete changes nothing at all. -/
theorem c8_delete_exact (s : LibState) (id : String) (l1 l2 : List Tutorial)
    (t0 : Tutorial) (e : Option String)
    (hsplit : s.tutorials = l1 ++ t0 :: l2)
    (hid : t0.id = id)
    (hothers : ∀ u ∈ l1 ++ l2, u.id ≠ id) :
    (handleDelete s id true .success).tutorials = l1 ++ l2 ∧
    (handleDelete s id true (.failure e)) =
      { s with alerts := jsOr e "Failed to delete tutorial" :: s.alerts } ∧
    (handleDelete s id false .success) = s := by
  refine ⟨?_, rfl, rfl⟩
  show (s.tutorials.filter (fun t => t.id != id)) = l1 ++ l2
  rw [hsplit, List.filter_append, List.filter_cons]
  have ht0 : (t0.id != id) = false := by
    rw [hid]
    exact bne_self_eq_false id
  rw [ht0]
  have h1 : l1.filter (fun t => t.id != id) = l1 := by
    apply List.filter_eq_self.mpr
    intro a ha
    exact bne_iff_ne.mpr (hothers a (List.mem_append_left _ ha))
  have h2 : l2.filter (fun t => t.id != id) = l2 := by
    apply List.filter_eq_self.mpr
    intro a ha
    exact bne_iff_ne.mpr (hothers a (List.mem_append_right _ ha))
  simp [h1, h2]

/-- Concrete library entry used in the C8/C9 witnesses. -/
def mkTutorial (i g : String) : Tutorial :=
  { id := i, goal := g, original_instruction := "oi", success_criteria := "sc"
  , steps_count := 3, video_url := "/v.mp4", video_filename := "v.mp4"
  , download_url := "/d", file_size_mb := 12, created_at := "t0" }

/-- Concrete library of three tutorials with entry b expanded and playing. -/
def libState3 : LibState :=
  { tutorials := [mkTutorial "a" "g1", mkTutorial "b" "g2", mkTutorial "c" "g3"]
  , loading := false, error := none, expandedId := some "b"
  , playingId := some "b", alerts := [] }

/-- Witness for claim C8 at libState3 deleting the middle entry. -/
theorem c8_witness :
    (handleDelete libState3 "b" true .success).tutorials =
      [mkTutorial "a" "g1", mkTutorial "c" "g3"] ∧
    (handleDelete libState3 "b" true (.failure none)) =
      { libState3 with alerts := jsOr none "Failed to delete tutorial" :: libState3.alerts } ∧
    (handleDelete libState3 "b" false .success) = libState3 :=
  c8_delete_exact libState3 "b" [mkTutorial "a" "g1"] [mkTutorial "c" "g3"]
    (mkTutorial "b" "g2") none rfl rfl (by decide)

lemma handleDelete_success_expandedId (s : LibState) (id : String) :
    (handleDelete s id true .success).expandedId =
      if s.expandedId = some id then none else s.expandedId := rfl

lemma handleDelete_success_playingId (s : LibState) (id : String) :
    (handleDelete s id true .success).playingId =
      if s.playingId = some id then none else s.playingId := rfl

/-- Claim C9: a confirmed successful delete clears expandedId exactly when it
referenced the deleted id, likewise playingId, leaves them alone otherwise,
and never leaves either referencing the removed id. -/
theorem c9_no_dangling_selection (s : LibState) (id : String) :
    (s.expandedId = some id → (handleDelete s id true .success).expandedId = none) ∧
    (s.playingId = some id → (handleDelete s id true .success).playingId = none) ∧
    (s.expandedId ≠ some id → (handleDelete s id true .success).expandedId = s.expandedId) ∧
    (s.playingId ≠ some id → (handleDelete s id true .success).playingId = s.playingId) ∧
    (handleDelete s id true .success).expandedId ≠ some id ∧
    (handleDelete s id true .success).playingId ≠ some id := by
  refine ⟨?_, ?_, ?_, ?_, ?_, ?_⟩
  · intro h
    rw [handleDelete_success_expandedId, if_pos h]
  · intro h
    rw [handleDelete_success_playingId, if_pos h]
  · intro h
    rw [handleDelete_success_expandedId, if_neg h]
  · intro h
    rw [handleDelete_success_playingId, if_neg h]
  · rw [handleDelete_success_expandedId]
    split
    · simp
    · assumption
  · rw [handleDelete_success_playingId]
    split
    · simp
    · assumption

/-- Witness for claim C9 at libState3: deleting b clears both selections,
deleting a (not selected) leaves the selection alone. -/
theorem c9_witness :
    (handleDelete libState3 "b" true .success).expandedId = none ∧
    (handleDelete libState3 "b" true .success).playingId = none ∧
    (handleDelete libState3 "a" true .success).expandedId = libState3.expandedId ∧
    (handleDelete libState3 "a" true .success).playingId = libState3.playingId :=
  ⟨(c9_no_dangling_selection libState3 "b").1 rfl,
   (c9_no_dangling_selection libState3 "b").2.1 rfl,
   (c9_no_dangling_selection libState3 "a").2.2.1 (by decide),
   (c9_no_dangling_selection libState3 "a").2.2.2.1 (by decide)⟩

/-! Embedding of VideoRequestForm.tsx. -/

/-- The whitespace set of JS String.prototype.trim (ECMAScript WhiteSpace
and LineTerminator): the ASCII whitespace characters, the line terminators
LF, CR, LS and PS, the BOM, and every Space_Separator code point (space,
no-break space, ogham space mark, the en-quad..hair-space range
U+2000-U+200A, narrow no-break space, medium mathematical space and
ideographic space). -/
def isJsWhitespace (c : Char) : Bool :=
  c == ' ' || c == '\t' || c == '\n' || c == '\r' ||
  c == '\x0b' || c == '\x0c' || c == '\u00A0' || c == '\u1680' ||
  c == '\u2000' || c == '\u2001' || c == '\u2002' || c == '\u2003' ||
  c == '\u2004' || c == '\u2005' || c == '\u2006' || c == '\u2007' ||
  c == '\u2008' || c == '\u2009' || c == '\u200A' ||
  c == '\u2028' || c == '\u2029' || c == '\u202F' ||
  c == '\u205F' || c == '\u3000' || c == '\uFEFF'

/-- JS instruction.trim(): strip leading and trailing whitespace. -/
def jsTrim (s : String) : String :=
  ⟨((s.data.dropWhile isJsWhitespace).reverse.dropWhile isJsWhitespace).reverse⟩

/-- handleSubmit (VideoRequestForm.tsx lines 11-16): e.preventDefault();
if (instruction.trim()) onSubmit(instruction.trim()).  The result is the
argument onSubmit is invoked with, or none when onSubmit is not invoked (a
nonempty JS string is truthy). -/
def handleSubmit (instruction : String) : Option String :=
  if jsTrim instruction != "" then some (jsTrim instruction) else none

/-- Claim C10: onSubmit is invoked if and only if the instruction is
non-empty after trimming, and always with the trimmed instruction; a
whitespace-only or empty input never invokes it. -/
theorem c10_submit_iff_trimmed_nonempty (instruction : String) :
    ((handleSubmit instruction).isSome ↔ jsTrim instruction ≠ "") ∧
    (∀ out : String, handleSubmit instruction = some out → out = jsTrim instruction) := by
  constructor
  · unfold handleSubmit
    by_cases h : jsTrim instruction = ""
    · have hb : (jsTrim instruction != "") = false := by
        rw [h]
        exact bne_self_eq_false _
      rw [hb]
      simp [h]
    · have hb : (jsTrim instruction != "") = true := bne_iff_ne.mpr h
      rw [hb]
      simp [h]
  · intro out hout
    unfold handleSubmit at hout
    split at hout
    · injection hout with h
      exact h.symm
    · cases hout

/-- Witness for claim C10: a padded instruction submits its trimmed text
(also with ideographic-space padding), and whitespace-only inputs (ASCII or
an ideographic space alone) never submit. -/
theorem c10_witness :
    (handleSubmit " open notepad ").isSome = true ∧
    "open notepad" = jsTrim " open notepad " ∧
    "foo" = jsTrim " foo\u3000" ∧
    handleSubmit "   " = none ∧
    handleSubmit "\u3000" = none :=
  ⟨(c10_submit_iff_trimmed_nonempty " open notepad ").1.mpr (by decide),
   (c10_submit_iff_trimmed_nonempty " open notepad ").2 "open notepad" (by decide),
   (c10_submit_iff_trimmed_nonempty " foo\u3000").2 "foo" (by decide),
   by decide, by decide⟩
